import Mathlib

/-!
Verification of the calibration-environment instrument stack.

This file shallowly embeds the parts of the program that the checked
properties are about:

* `calibration_environment/drivers/water_bath/serial.py` — the binary
  packet codec for the NESLAB RTE water bath (`SerialPacket`, checksum,
  fixed-point value parsing, command construction);
* `calibration_environment/drivers/gas_mixer.py` — the ASCII protocol for
  the Alicat gas mixer (ppb fraction arithmetic, mix validation, run-state
  parsing, the constant-flow start sequence);
* `calibration_environment/retry.py` — the bounded retry combinator built
  on the `backoff` library;
* `calibration_environment/equilibrate.py` — the windowed equilibration
  check;
* the orchestrator's fail-safe shutdown path.

Machine integers are embedded as `Nat`/`Int` with explicit `% 256` where
the code truncates to a byte; Python floats are embedded as `ℚ` (the
numeric claims are about exact decimal arithmetic); fallible code returns
`Except`.  Exception classes that the claims distinguish are modelled as
constructors of per-module error types.
-/

namespace PySem

/-- Python's `round(x)` to an integer: round half to even (banker's
rounding), which is the rounding mode of Python 3's builtin `round`. -/
def pythonRound (x : ℚ) : ℤ :=
  let f : ℤ := ⌊x⌋
  let frac : ℚ := x - f
  if frac < 1/2 then f
  else if frac > 1/2 then f + 1
  else if f % 2 = 0 then f else f + 1

/-- Python's `int(x)` on a number: truncation toward zero. -/
def pythonInt (x : ℚ) : ℤ :=
  if 0 ≤ x then ⌊x⌋ else -⌊-x⌋

theorem pythonInt_eq_floor_of_nonneg (x : ℚ) (hx : 0 ≤ x) : pythonInt x = ⌊x⌋ := by
  simp [pythonInt, hx]

theorem pythonRound_le_ceil (x : ℚ) : pythonRound x ≤ ⌈x⌉ := by
  have hfc : (⌊x⌋ : ℤ) ≤ ⌈x⌉ := Int.floor_le_ceil x
  have hsucc : ¬ x - ⌊x⌋ < 1/2 → (⌊x⌋ + 1 : ℤ) ≤ ⌈x⌉ := by
    intro h1
    have hle : (1/2 : ℚ) ≤ x - ⌊x⌋ := le_of_not_lt h1
    have hlt : (⌊x⌋ : ℚ) < x := by linarith
    have : (⌊x⌋ : ℤ) < ⌈x⌉ := by
      by_contra hc
      push_neg at hc
      have hxint : (⌈x⌉ : ℚ) ≤ (⌊x⌋ : ℚ) := by exact_mod_cast hc
      have := Int.le_ceil x
      linarith
    omega
  unfold pythonRound
  dsimp only
  split_ifs with h1 h2 h3
  · exact hfc
  · exact hsucc h1
  · exact hfc
  · exact hsucc h1

theorem pythonRound_intCast (n : ℤ) : pythonRound (n : ℚ) = n := by
  unfold pythonRound
  norm_num

/-- Minimum of a list (`pandas` column `.min()`), defaulting to 0 on an empty
list; all uses are on nonempty lists. -/
def listMin : List ℚ → ℚ
  | [] => 0
  | x :: xs => xs.foldl min x

/-- Maximum of a list (`pandas` column `.max()`), defaulting to 0 on an empty
list; all uses are on nonempty lists. -/
def listMax : List ℚ → ℚ
  | [] => 0
  | x :: xs => xs.foldl max x

end PySem

namespace WaterBath

/-! Embedding of `calibration_environment/drivers/water_bath/constants.py` and
`calibration_environment/drivers/water_bath/serial.py`.  Bytes are `Nat`s;
a Python `bytes` object is a `List Nat` whose elements are below 256. -/

/-- Exceptions raised by the water-bath serial layer.  `valueError`,
`indexError`, `keyError` and `overflowError` stand for the corresponding
Python builtins; the remaining constructors are the module's own exception
classes from `water_bath/exceptions.py`. -/
inductive WaterBathError
  | valueError
  | indexError
  | keyError
  | overflowError
  | precisionMismatch
  | errorResponse
  | invalidResponse
deriving DecidableEq

/-- Constant `REPORTING_PRECISION = 0.01` from `constants.py`. -/
def reportingPrecision : ℚ := 1/100

/-- Constant `DEFAULT_PREFIX = 0xCA` from `constants.py` (RS-232 mode). -/
def defaultPrefixByte : ℕ := 0xCA

/-- Constant `DEFAULT_DEVICE_ADDRESS_MSB = 0x00` from `constants.py`. -/
def defaultDeviceAddressMsb : ℕ := 0x00

/-- Constant `DEFAULT_DEVICE_ADDRESS_LSB = 0x01` from `constants.py`. -/
def defaultDeviceAddressLsb : ℕ := 0x01

/-- Lookup in the dict `COMMAND_NAME_TO_HEX` from `constants.py`. -/
def commandNameToHex (name : String) : Option ℕ :=
  if name = "Read Internal Temperature" then some 0x20
  else if name = "Read External Sensor" then some 0x21
  else if name = "Read Setpoint" then some 0x70
  else if name = "Read Low Temperature Limit" then some 0x40
  else if name = "Read High Temperature Limit" then some 0x60
  else if name = "Read Heat Proportional Band" then some 0x71
  else if name = "Read Heat Integral" then some 0x72
  else if name = "Read Heat Derivative" then some 0x73
  else if name = "Read Cool Proportional Band" then some 0x74
  else if name = "Read Cool Integral" then some 0x75
  else if name = "Read Cool Derivative" then some 0x76
  else if name = "Set Setpoint" then some 0xF0
  else if name = "Set Low Temperature Limit" then some 0xC0
  else if name = "Set High Temperature Limit" then some 0xE0
  else if name = "Set Heat Proportional Band" then some 0xF1
  else if name = "Set Heat Integral" then some 0xF2
  else if name = "Set Heat Derivative" then some 0xF3
  else if name = "Set Cool Proportional Band" then some 0xF4
  else if name = "Set Cool Integral" then some 0xF5
  else if name = "Set Cool Derivative" then some 0xF6
  else none

/-- Lookup in the dict `_QUALIFIER_HEX_TO_PRECISION` from `constants.py`:
`{0x10: 0.1, 0x20: 0.01, 0x11: 0.1, 0x21: 0.01}`. -/
def qualifierHexToPrecision (qualifier : ℕ) : Option ℚ :=
  if qualifier = 0x10 then some (1/10)
  else if qualifier = 0x20 then some (1/100)
  else if qualifier = 0x11 then some (1/10)
  else if qualifier = 0x21 then some (1/100)
  else none

/-- Function `_calculate_checksum` from `serial.py`: `(sum(message_bytes) & 0xFF) ^ 0xFF`. -/
def calculateChecksum (messageBytes : List ℕ) : ℕ :=
  (messageBytes.sum % 256) ^^^ 0xFF

/-- Class `SerialPacket` from `serial.py`: the fields set by `__init__`.
Python's `__eq__` compares `__dict__`, i.e. all of these fields, which is
structure equality here. -/
structure SerialPacket where
  prefixByte : ℕ
  deviceAddressMsb : ℕ
  deviceAddressLsb : ℕ
  command : ℕ
  dataBytesCount : ℕ
  dataBytes : List ℕ
  checksum : ℕ
deriving DecidableEq

/-- Property `SerialPacket._message_bytes`: everything except the first
(prefix) and last (checksum) byte. -/
def SerialPacket.messageBytes (p : SerialPacket) : List ℕ :=
  [p.deviceAddressMsb, p.deviceAddressLsb, p.command, p.dataBytesCount] ++ p.dataBytes

/-- Method `SerialPacket.validate`: the five construction-time checks.
`validate` raises `ValueError` when any of them fails. -/
def SerialPacket.valid (p : SerialPacket) : Prop :=
  p.prefixByte = defaultPrefixByte
  ∧ p.deviceAddressMsb = defaultDeviceAddressMsb
  ∧ p.deviceAddressLsb = defaultDeviceAddressLsb
  ∧ p.dataBytesCount = p.dataBytes.length
  ∧ p.checksum = calculateChecksum p.messageBytes

instance (p : SerialPacket) : Decidable p.valid := by
  unfold SerialPacket.valid
  infer_instance

/-- Constructor `SerialPacket.__init__`: fills in the checksum when none is
given and validates, raising `ValueError` (modelled as `.error .valueError`)
when validation fails. -/
def mkSerialPacket (prefixByte deviceAddressMsb deviceAddressLsb command dataBytesCount : ℕ)
    (dataBytes : List ℕ) (checksum : Option ℕ) : Except WaterBathError SerialPacket :=
  let messageBytes :=
    [deviceAddressMsb, deviceAddressLsb, command, dataBytesCount] ++ dataBytes
  let packet : SerialPacket :=
    { prefixByte := prefixByte
      deviceAddressMsb := deviceAddressMsb
      deviceAddressLsb := deviceAddressLsb
      command := command
      dataBytesCount := dataBytesCount
      dataBytes := dataBytes
      checksum := checksum.getD (calculateChecksum messageBytes) }
  if packet.valid then .ok packet else .error .valueError

/-- Classmethod `SerialPacket.from_bytes`: parses
`packet_bytes[0] .. packet_bytes[4]`, `packet_bytes[5:-1]` and
`packet_bytes[-1]` and hands them to the constructor.  Indexing a byte
string shorter than 5 raises `IndexError`. -/
def SerialPacket.fromBytes (packetBytes : List ℕ) : Except WaterBathError SerialPacket :=
  match packetBytes with
  | b0 :: b1 :: b2 :: b3 :: b4 :: rest =>
      mkSerialPacket b0 b1 b2 b3 b4 rest.dropLast (some (rest.getLastD b4))
  | _ => .error .indexError

/-- Classmethod `SerialPacket.from_command`: builds a request packet from the
protocol constants, the command byte and the data bytes. -/
def SerialPacket.fromCommand (command : ℕ) (dataBytes : List ℕ) :
    Except WaterBathError SerialPacket :=
  mkSerialPacket defaultPrefixByte defaultDeviceAddressMsb defaultDeviceAddressLsb
    command dataBytes.length dataBytes none

/-- Method `SerialPacket.to_bytes`:
`bytes([prefix]) + message_bytes + bytes([checksum])`. -/
def SerialPacket.toBytes (p : SerialPacket) : List ℕ :=
  p.prefixByte :: (p.messageBytes ++ [p.checksum])

/-- Python's `int.from_bytes(data, byteorder="big")` (unsigned). -/
def intFromBytesBigEndian (data : List ℕ) : ℕ :=
  data.foldl (fun acc b => acc * 256 + b) 0

/-- Python's `n.to_bytes(2, byteorder="big")` for an `int` `n`: two bytes,
big-endian; raises `OverflowError` when `n` is negative or does not fit. -/
def intToTwoBytesBigEndian (n : ℤ) : Except WaterBathError (List ℕ) :=
  if 0 ≤ n ∧ n < 65536 then .ok [n.toNat / 256, n.toNat % 256]
  else .error .overflowError

/-- Function `_parse_data_bytes_as_float` from `serial.py`: the first byte is
the qualifier, looked up in `_QUALIFIER_HEX_TO_PRECISION` (a missing key
raises `KeyError`); a qualifier precision different from the expected one
raises `PrecisionMismatch`; otherwise the remaining bytes are decoded as an
unsigned big-endian integer and scaled by the precision. -/
def parseDataBytesAsFloat (qualifiedDataBytes : List ℕ) (expectedPrecision : ℚ) :
    Except WaterBathError ℚ :=
  match qualifiedDataBytes with
  | [] => .error .indexError
  | qualifier :: dataBytes =>
      match qualifierHexToPrecision qualifier with
      | none => .error .keyError
      | some precision =>
          if precision = expectedPrecision then
            .ok ((intFromBytesBigEndian dataBytes : ℚ) * precision)
          else .error .precisionMismatch

/-- Function `_construct_command_packet` from `serial.py`: read commands (no
data) carry zero data bytes; set commands encode
`int(round(data / REPORTING_PRECISION))` as a big-endian 2-byte integer. -/
def constructCommandPacket (commandName : String) (data : Option ℚ) :
    Except WaterBathError SerialPacket :=
  match commandNameToHex commandName with
  | none => .error .keyError
  | some command =>
      match data with
      | none => SerialPacket.fromCommand command []
      | some value => do
          let dataBytes ← intToTwoBytesBigEndian
            (PySem.pythonRound (value / reportingPrecision))
          SerialPacket.fromCommand command dataBytes

end WaterBath

namespace WaterBath

theorem dropLast_append_singleton {α : Type} (l : List α) (a : α) :
    (l ++ [a]).dropLast = l := by
  simp

theorem getLastD_append_singleton {α : Type} (l : List α) (a d : α) :
    (l ++ [a]).getLastD d = a := by
  induction l with
  | nil => rfl
  | cons x xs ih =>
      cases xs with
      | nil => rfl
      | cons y ys => simpa using ih

/-- C2: for every `SerialPacket` satisfying the construction-time validation,
parsing its serialized bytes reproduces it exactly:
`SerialPacket.from_bytes(p.to_bytes()) == p`. -/
theorem serialPacket_fromBytes_toBytes (p : SerialPacket) (h : p.valid) :
    SerialPacket.fromBytes p.toBytes = .ok p := by
  have hshape : p.toBytes
      = p.prefixByte :: p.deviceAddressMsb :: p.deviceAddressLsb :: p.command ::
        p.dataBytesCount :: (p.dataBytes ++ [p.checksum]) := by
    simp [SerialPacket.toBytes, SerialPacket.messageBytes]
  rw [hshape]
  show mkSerialPacket p.prefixByte p.deviceAddressMsb p.deviceAddressLsb p.command
      p.dataBytesCount (p.dataBytes ++ [p.checksum]).dropLast
      (some ((p.dataBytes ++ [p.checksum]).getLastD p.dataBytesCount)) = .ok p
  rw [dropLast_append_singleton, getLastD_append_singleton]
  show (if p.valid then (Except.ok p : Except WaterBathError SerialPacket)
      else .error .valueError) = .ok p
  rw [if_pos h]

/-- Closed witness for C2: a concrete valid packet (the "Read Internal
Temperature" request) round-trips. -/
theorem serialPacket_fromBytes_toBytes_witness :
    SerialPacket.fromBytes
      (SerialPacket.toBytes
        { prefixByte := 0xCA, deviceAddressMsb := 0, deviceAddressLsb := 1,
          command := 0x20, dataBytesCount := 0, dataBytes := [], checksum := 0xDE })
      = .ok
        { prefixByte := 0xCA, deviceAddressMsb := 0, deviceAddressLsb := 1,
          command := 0x20, dataBytesCount := 0, dataBytes := [], checksum := 0xDE } :=
  serialPacket_fromBytes_toBytes _ (by decide)

end WaterBath

namespace WaterBath

theorem qualifier_precision_pos (q : ℕ) (prec : ℚ)
    (hq : qualifierHexToPrecision q = some prec) : 0 < prec := by
  unfold qualifierHexToPrecision at hq
  split_ifs at hq <;> (injection hq with h; rw [h.symm] at *; norm_num)

/-- C5: the water bath fixed-point codec round-trips at the negotiated
precision 0.01: the "Set Setpoint" command for 62.5 encodes
`round(62.5 / 0.01) = 6250` as the big-endian bytes `[0x18, 0x6A]`, parsing
the corresponding response data (qualifier `0x21`, precision 0.01) returns
exactly 62.5, and parsing response data whose qualifier (`0x11`) maps to
precision 0.1 raises `PrecisionMismatch`. -/
theorem setSetpoint_fixed_point_roundtrip :
    PySem.pythonRound ((125/2 : ℚ) / reportingPrecision) = 6250
    ∧ constructCommandPacket "Set Setpoint" (some (125/2))
      = .ok { prefixByte := 0xCA, deviceAddressMsb := 0, deviceAddressLsb := 1,
              command := 0xF0, dataBytesCount := 2, dataBytes := [0x18, 0x6A],
              checksum := 138 }
    ∧ (0x18 * 256 + 0x6A : ℕ) = 6250
    ∧ parseDataBytesAsFloat [0x21, 0x18, 0x6A] reportingPrecision = .ok (125/2)
    ∧ parseDataBytesAsFloat [0x11, 0x18, 0x6A] reportingPrecision
      = .error .precisionMismatch := by
  have hdiv : (125/2 : ℚ) / reportingPrecision = ((6250 : ℤ) : ℚ) := by
    norm_num [reportingPrecision]
  have hround : PySem.pythonRound ((125/2 : ℚ) / reportingPrecision) = 6250 := by
    rw [hdiv, PySem.pythonRound_intCast]
  have hbytes :
      intToTwoBytesBigEndian (PySem.pythonRound ((125/2 : ℚ) / reportingPrecision))
        = .ok [0x18, 0x6A] := by
    rw [hround]; rfl
  refine ⟨hround, ?_, by norm_num, ?_, ?_⟩
  · show constructCommandPacket "Set Setpoint" (some (125/2)) = _
    unfold constructCommandPacket
    rw [show commandNameToHex "Set Setpoint" = some 0xF0 from rfl]
    show (intToTwoBytesBigEndian (PySem.pythonRound ((125/2 : ℚ) / reportingPrecision))).bind
        (fun dataBytes => SerialPacket.fromCommand 0xF0 dataBytes)
      = _
    rw [hbytes]
    rfl
  · show parseDataBytesAsFloat [0x21, 0x18, 0x6A] reportingPrecision = .ok (125/2)
    unfold parseDataBytesAsFloat qualifierHexToPrecision
    norm_num [intFromBytesBigEndian, reportingPrecision]
  · show parseDataBytesAsFloat [0x11, 0x18, 0x6A] reportingPrecision
      = .error .precisionMismatch
    unfold parseDataBytesAsFloat qualifierHexToPrecision
    norm_num [reportingPrecision]

/-- C9: the response-value parser treats the two value bytes as an unsigned
big-endian integer: whenever the qualifier is in the precision table and
matches the expected precision, the parsed value is `(hi*256+lo) * precision`,
which is nonnegative and at most `65535 * precision`; the two's-complement
encoding `0xFF 0xFF` of -1 comes back as the large positive value 655.35,
never as a negative number. -/
theorem parseDataBytes_unsigned (q hi lo : ℕ) (prec : ℚ)
    (hq : qualifierHexToPrecision q = some prec) :
    parseDataBytesAsFloat [q, hi, lo] prec = .ok (((hi * 256 + lo : ℕ) : ℚ) * prec)
    ∧ 0 ≤ ((hi * 256 + lo : ℕ) : ℚ) * prec
    ∧ (hi ≤ 255 → lo ≤ 255 → ((hi * 256 + lo : ℕ) : ℚ) * prec ≤ 65535 * prec)
    ∧ parseDataBytesAsFloat [0x21, 0xFF, 0xFF] (1/100) = .ok (65535/100)
    ∧ (0 : ℚ) < 65535/100 := by
  have hpos := qualifier_precision_pos q prec hq
  have hff : parseDataBytesAsFloat [0x21, 0xFF, 0xFF] (1/100) = .ok (65535/100) := by
    unfold parseDataBytesAsFloat qualifierHexToPrecision
    norm_num [intFromBytesBigEndian]
  refine ⟨?_, ?_, ?_, hff, by norm_num⟩
  · show (match qualifierHexToPrecision q with
      | none => (.error .keyError : Except WaterBathError ℚ)
      | some precision =>
          if precision = prec then
            .ok ((intFromBytesBigEndian [hi, lo] : ℚ) * precision)
          else .error .precisionMismatch) = .ok (((hi * 256 + lo : ℕ) : ℚ) * prec)
    rw [hq]
    simp [intFromBytesBigEndian]
  · positivity
  · intro hhi hlo
    have hbound : (hi * 256 + lo : ℕ) ≤ 65535 := by omega
    have hcast : ((hi * 256 + lo : ℕ) : ℚ) ≤ 65535 := by exact_mod_cast hbound
    exact mul_le_mul_of_nonneg_right hcast (le_of_lt hpos)

/-- Closed witness for C9 at qualifier `0x20` (precision 0.01) and value
bytes `0x02 0x71` (the datasheet's 62.5 example at precision 0.1 scale). -/
theorem parseDataBytes_unsigned_witness :
    parseDataBytesAsFloat [0x20, 0x02, 0x71] (1/100) = .ok (((0x02 * 256 + 0x71 : ℕ) : ℚ) * (1/100))
    ∧ (0 : ℚ) ≤ ((0x02 * 256 + 0x71 : ℕ) : ℚ) * (1/100) :=
  ⟨(parseDataBytes_unsigned 0x20 0x02 0x71 (1/100) rfl).1,
   (parseDataBytes_unsigned 0x20 0x02 0x71 (1/100) rfl).2.1⟩

end WaterBath

namespace Retry

/-! Embedding of `calibration_environment/retry.py`.  `retry_on_exception`
wraps a function with `backoff.on_exception(backoff.constant, expected_exception,
jitter=backoff.full_jitter, interval=0.5, max_tries=10, ...)`.  The `backoff`
dependency's `max_tries` is the maximum total number of calls (the repo's own
`retry_test.py` pins this: a function that fails 9 times and succeeds on its
10th call passes through the wrapper).  Attempt outcomes are supplied as a
function from the 0-based attempt index to an `Except`; `isExpected` is the
exception filter (`expected_exception`); the result is paired with the total
number of calls made. -/

/-- Constant `"max_tries": 10` passed to `backoff.on_exception` in
`retry_on_exception`. -/
def maxTries : ℕ := 10

/-- The `backoff.on_exception` retry loop: call the function; re-raise an
unexpected exception immediately; on an expected exception, retry while
attempts remain, and re-raise the last attempt's exception unchanged once
`max_tries` calls have been made. -/
def backoffLoop {ε α : Type} (isExpected : ε → Bool) (f : ℕ → Except ε α) :
    ℕ → ℕ → Except ε α × ℕ
  | idx, 0 => (f idx, idx + 1)
  | idx, 1 => (f idx, idx + 1)
  | idx, triesLeft + 2 =>
      match f idx with
      | .ok a => (.ok a, idx + 1)
      | .error e =>
          if isExpected e then backoffLoop isExpected f (idx + 1) (triesLeft + 1)
          else (.error e, idx + 1)

/-- Function `retry_on_exception(expected_exception)` applied to a function:
the retry loop with the module's fixed bound of 10 total calls. -/
def retryOnException {ε α : Type} (isExpected : ε → Bool) (f : ℕ → Except ε α) :
    Except ε α × ℕ :=
  backoffLoop isExpected f 0 maxTries

theorem backoffLoop_all_fail {ε α : Type} (isExpected : ε → Bool) (errs : ℕ → ε)
    (hex : ∀ i, isExpected (errs i) = true) :
    ∀ n idx, backoffLoop isExpected (fun i => (.error (errs i) : Except ε α)) idx (n + 1)
      = (.error (errs (idx + n)), idx + n + 1) := by
  intro n
  induction n with
  | zero => intro idx; rfl
  | succ n ih =>
      intro idx
      show (match (.error (errs idx) : Except ε α) with
        | .ok a => ((.ok a : Except ε α), idx + 1)
        | .error e =>
            if isExpected e then
              backoffLoop isExpected (fun i => (.error (errs i) : Except ε α)) (idx + 1) (n + 1)
            else (.error e, idx + 1))
        = (.error (errs (idx + (n + 1))), idx + (n + 1) + 1)
      rw [show (idx + (n + 1)) = (idx + 1) + n by omega]
      simp only [hex idx, if_true]
      exact ih (idx + 1)

theorem backoffLoop_unexpected {ε α : Type} (isExpected : ε → Bool) (f : ℕ → Except ε α)
    (idx : ℕ) (e : ε) (hf : f idx = .error e) (hu : isExpected e = false) :
    ∀ n, backoffLoop isExpected f idx (n + 1) = (.error e, idx + 1) := by
  intro n
  cases n with
  | zero => show (f idx, idx + 1) = _; rw [hf]
  | succ n =>
      show (match f idx with
        | .ok a => ((.ok a : Except ε α), idx + 1)
        | .error e =>
            if isExpected e then backoffLoop isExpected f (idx + 1) (n + 1)
            else (.error e, idx + 1))
        = (.error e, idx + 1)
      rw [hf]
      simp only [hu, if_false]
      rfl

/-- C4 (amended): when every invocation of the wrapped function raises the
expected exception kind, the wrapper makes exactly 10 calls in total (the
initial attempt plus 9 retries) and then raises the final failure unchanged —
the very exception value from the 10th (last) attempt, not a wrapper or
substitute. -/
theorem retryOnException_exhausts_after_ten_calls {ε α : Type} (isExpected : ε → Bool)
    (errs : ℕ → ε) (hex : ∀ i, isExpected (errs i) = true) :
    retryOnException isExpected (fun i => (.error (errs i) : Except ε α))
      = (.error (errs 9), 10) := by
  show backoffLoop isExpected _ 0 (9 + 1) = _
  rw [backoffLoop_all_fail isExpected errs hex 9 0]

/-- Closed witness for C4's amended theorem: attempts indexed by their own
number all fail; the wrapper returns the 10th attempt's error after exactly
10 calls. -/
theorem retryOnException_exhausts_after_ten_calls_witness :
    retryOnException (fun _ => true) (fun i => (.error i : Except ℕ Unit))
      = (.error 9, 10) :=
  retryOnException_exhausts_after_ten_calls (fun _ => true) (fun i => i) (fun _ => rfl)

/-- Counterexample for C4 as stated: with every attempt failing with the
expected exception, the wrapper built by `retry_on_exception` makes 10 calls
in total, not the 11 calls (1 initial + 10 retries) that "retries up to the
fixed bound of 10 retries and then raises the final failure" requires:
`max_tries=10` counts total calls, so only 9 retries happen. -/
theorem retryOnException_only_nine_retries :
    (retryOnException (fun _ => true) (fun i => (.error i : Except ℕ Unit))).2 = 10
    ∧ ((retryOnException (fun _ => true) (fun i => (.error i : Except ℕ Unit))).2 = 1 + 10
        → False) := by
  constructor
  · rfl
  · intro h
    simp only [show (retryOnException (fun _ => true)
        (fun i => (.error i : Except ℕ Unit))).2 = 10 from rfl] at h
    omega

end Retry

namespace GasMixer

/-! Embedding of `calibration_environment/drivers/gas_mixer.py`.  Serial
traffic is modelled by an oracle `respond : ℕ → String` giving the device's
reply to the i-th command sent during one driver call; a driver call returns
the list of command strings it actually sent together with its outcome. -/

/-- Exceptions the gas-mixer driver can raise that the claims distinguish:
the module's `UnexpectedMixerResponse`, Python's `AttributeError` (calling
`.groups()` on the `None` returned by a failed `re.match`) and Python's
`ValueError` (an invalid `_MixControllerStateCode` member, or an invalid
mix requested from `_start_constant_flow_mix`). -/
inductive MixerError
  | unexpectedMixerResponse
  | attributeError
  | valueError
deriving DecidableEq

/-- Constant `_DEVICE_ID = "A"`. -/
def deviceId : String := "A"

/-- Constant `_ONE_BILLION = 1000000000`. -/
def oneBillion : ℤ := 1000000000

/-- Constant `_N2_MAX_FLOW = 10` (SLPM). -/
def nitrogenMaxFlow : ℚ := 10

/-- Constant `_O2_SOURCE_GAS_MAX_FLOW = 2.5` (SLPM). -/
def o2SourceGasMaxFlow : ℚ := 5/2

/-- Constant `MIN_FLOW_RATE_FRACTION = 0.02`. -/
def minFlowRateFraction : ℚ := 1/50

/-- Constant `_MIXER_MODE_CODE_CONSTANT_FLOW = 3`. -/
def mixerModeCodeConstantFlow : ℕ := 3

/-- Constant `_FLOW_UNIT_CODE_SLPM = 7`. -/
def flowUnitCodeSlpm : ℕ := 7

/-- Function `_fraction_to_ppb`: `int(fraction * _ONE_BILLION)` — note
Python's `int()` truncates. -/
def fractionToPpb (fraction : ℚ) : ℤ :=
  PySem.pythonInt (fraction * (oneBillion : ℚ))

/-- Function `_complimentary_ppb_value`: `_ONE_BILLION - int(ppb_value)`. -/
def complimentaryPpbValue (ppbValue : ℤ) : ℤ :=
  oneBillion - ppbValue

/-- Function `_get_o2_source_gas_flow_rate`:
`total_flow_rate_slpm * setpoint_o2_fraction / o2_source_gas_o2_fraction`. -/
def getO2SourceGasFlowRate
    (totalFlowRateSlpm setpointO2Fraction o2SourceGasO2Fraction : ℚ) : ℚ :=
  totalFlowRateSlpm * setpointO2Fraction / o2SourceGasO2Fraction

/-- The five keys of the `validation_errors` dict in
`get_mix_validation_errors`, in dict order. -/
inductive MixValidationError
  | setpointGasO2FractionTooHigh
  | o2FlowRateAboveMax
  | o2FlowRateBelowMinimum
  | n2FlowRateAboveMax
  | n2FlowRateBelowMinimum
deriving DecidableEq

/-- Function `get_mix_validation_errors`: computes both channels' flow rates
and returns the list of violated constraints, in dict order.  Argument order
follows the source: `(total_flow_rate_slpm, o2_source_gas_o2_fraction,
setpoint_o2_fraction)`. -/
def getMixValidationErrors
    (totalFlowRateSlpm o2SourceGasO2Fraction setpointO2Fraction : ℚ) :
    List MixValidationError :=
  let o2SourceGasFlowRate :=
    getO2SourceGasFlowRate totalFlowRateSlpm setpointO2Fraction o2SourceGasO2Fraction
  let n2SourceGasFlowRate := totalFlowRateSlpm - o2SourceGasFlowRate
  (if setpointO2Fraction > o2SourceGasO2Fraction
    then [MixValidationError.setpointGasO2FractionTooHigh] else [])
  ++ (if o2SourceGasFlowRate > o2SourceGasMaxFlow
    then [MixValidationError.o2FlowRateAboveMax] else [])
  ++ (if o2SourceGasFlowRate < o2SourceGasMaxFlow * minFlowRateFraction
        ∧ o2SourceGasFlowRate ≠ 0
    then [MixValidationError.o2FlowRateBelowMinimum] else [])
  ++ (if n2SourceGasFlowRate > nitrogenMaxFlow
    then [MixValidationError.n2FlowRateAboveMax] else [])
  ++ (if n2SourceGasFlowRate < nitrogenMaxFlow * minFlowRateFraction
        ∧ n2SourceGasFlowRate ≠ 0
    then [MixValidationError.n2FlowRateBelowMinimum] else [])

/-- Function `_get_source_gas_flow_rates_ppb`: the O2-source-gas channel is
converted with `_fraction_to_ppb`, the N2 channel is its complement, so the
two always sum to exactly one billion. -/
def getSourceGasFlowRatesPpb (o2SourceGasO2Fraction setpointO2Fraction : ℚ) : ℤ × ℤ :=
  let setpointO2SourceGasFraction := setpointO2Fraction / o2SourceGasO2Fraction
  let o2SourceGasPpb := fractionToPpb setpointO2SourceGasFraction
  (complimentaryPpbValue o2SourceGasPpb, o2SourceGasPpb)

/-- The regex match `re.match(r"A (\d)", actual_response)` performed by
`_assert_mixer_state`: succeeds iff the response starts with the device ID,
a space and a digit, capturing that digit. -/
def matchRunStateResponse (response : String) : Option ℕ :=
  match response.data with
  | 'A' :: ' ' :: c :: _ => if c.isDigit then some (c.toNat - 48) else none
  | _ => none

/-- The `_MixControllerStateCode` members are 0..5; the `IntEnum` call
raises `ValueError` for any other value. -/
def isMixControllerStateCode (code : ℕ) : Bool := code ≤ 5

/-- The list of "stopped" state codes accepted by `_stop_flow`, in source
order: `stopped_ok, stopped_error, stopped_configuration_error,
stopped_error_silent`. -/
def stoppedStateCodes : List ℕ := [3, 5, 1, 4]

/-- Function `_assert_mixer_state`: a response that does not match the
regex leaves `match` as `None`, so `match.groups()` raises
`AttributeError`; a matched digit outside the `_MixControllerStateCode`
enum raises `ValueError`; a valid state code outside `expected_codes`
raises `UnexpectedMixerResponse`. -/
def assertMixerState (actualResponse : String) (expectedCodes : List ℕ) :
    Except MixerError Unit :=
  match matchRunStateResponse actualResponse with
  | none => .error .attributeError
  | some code =>
      if isMixControllerStateCode code then
        if code ∈ expectedCodes then .ok ()
        else .error .unexpectedMixerResponse
      else .error .valueError

/-- Python's f-string format `{x:.2f}`: the value rounded (half-to-even) to
two decimal places, with exactly two fractional digits. -/
def formatTwoDecimals (x : ℚ) : String :=
  let n := PySem.pythonRound (x * 100)
  let a := n.natAbs
  (if n < 0 then "-" else "")
    ++ toString (a / 100) ++ "."
    ++ (if a % 100 < 10 then "0" else "") ++ toString (a % 100)

/-- Function `_send_sequence_with_expected_responses`: send each command in
turn; on the first response that differs from the exact expected string,
raise `UnexpectedMixerResponse` without sending the remaining commands.
Returns the commands actually sent and the outcome. -/
def sendSequenceWithExpectedResponses (respond : ℕ → String) :
    ℕ → List (String × String) → List String × Except MixerError Unit
  | _, [] => ([], .ok ())
  | i, (command, expectedResponse) :: rest =>
      if respond i = expectedResponse then
        let next := sendSequenceWithExpectedResponses respond (i + 1) rest
        (command :: next.1, next.2)
      else ([command], .error .unexpectedMixerResponse)

/-- Function `_stop_flow`: sends the single run-state command
`"A MXRS 2"` (`stop_flow = 2`) and asserts the reported state is one of the
"stopped" codes. -/
def stopFlowRun (respond : ℕ → String) : List String × Except MixerError Unit :=
  ([deviceId ++ " MXRS 2"], assertMixerState (respond 0) stoppedStateCodes)

/-- The `commands_and_expected_responses` list of
`_start_constant_flow_mix`: set constant-flow mode, set the mix fraction
(before the flow rate), set the flow rate, start mixing — each paired with
its exact expected echo. -/
def startMixCommands (setpointFlowRateSlpm : ℚ) (n2Ppb o2SourceGasPpb : ℤ) :
    List (String × String) :=
  [ (deviceId ++ " MXRM 3", "A 3"),
    (deviceId ++ " MXMF " ++ toString n2Ppb ++ " " ++ toString o2SourceGasPpb,
     deviceId ++ " " ++ toString n2Ppb ++ " " ++ toString o2SourceGasPpb),
    (deviceId ++ " MXRFF " ++ formatTwoDecimals setpointFlowRateSlpm,
     deviceId ++ " " ++ formatTwoDecimals setpointFlowRateSlpm ++ " 7 SLPM"),
    (deviceId ++ " MXRS 1", deviceId ++ " 2") ]

/-- Function `_start_constant_flow_mix`: a zero flow rate delegates to
`_stop_flow`; an invalid mix raises `ValueError`; otherwise the fixed
four-command sequence is sent with exact expected echoes. -/
def startConstantFlowMix (respond : ℕ → String)
    (setpointFlowRateSlpm setpointO2Fraction o2SourceGasO2Fraction : ℚ) :
    List String × Except MixerError Unit :=
  if setpointFlowRateSlpm = 0 then
    stopFlowRun respond
  else if getMixValidationErrors setpointFlowRateSlpm o2SourceGasO2Fraction
      setpointO2Fraction ≠ [] then
    ([], .error .valueError)
  else
    let ppbs := getSourceGasFlowRatesPpb o2SourceGasO2Fraction setpointO2Fraction
    sendSequenceWithExpectedResponses respond 0
      (startMixCommands setpointFlowRateSlpm ppbs.1 ppbs.2)

/-- The exception filter of the retry wrappers
`retry_on_exception(UnexpectedMixerResponse)`. -/
def isUnexpectedMixerResponse : MixerError → Bool
  | .unexpectedMixerResponse => true
  | _ => false

/-- `stop_flow_with_retry = retry_on_exception(UnexpectedMixerResponse)(_stop_flow)`.
`respondAt attempt step` is the device's reply to the given step of the given
attempt; the result is paired with the number of attempts made. -/
def stopFlowWithRetry (respondAt : ℕ → ℕ → String) : Except MixerError Unit × ℕ :=
  Retry.retryOnException isUnexpectedMixerResponse
    (fun attempt => (stopFlowRun (respondAt attempt)).2)

/-- `start_constant_flow_mix_with_retry =
retry_on_exception(UnexpectedMixerResponse)(_start_constant_flow_mix)`. -/
def startConstantFlowMixWithRetry (respondAt : ℕ → ℕ → String)
    (setpointFlowRateSlpm setpointO2Fraction o2SourceGasO2Fraction : ℚ) :
    Except MixerError Unit × ℕ :=
  Retry.retryOnException isUnexpectedMixerResponse
    (fun attempt => (startConstantFlowMix (respondAt attempt)
      setpointFlowRateSlpm setpointO2Fraction o2SourceGasO2Fraction).2)

end GasMixer

namespace PySem

theorem pythonInt_intCast (n : ℤ) : pythonInt (n : ℚ) = n := by
  unfold pythonInt
  split_ifs with h
  · simp
  · rw [show (-(n : ℚ)) = ((-n : ℤ) : ℚ) by push_cast; ring, Int.floor_intCast]
    omega

end PySem

namespace GasMixer

/-- Counterexample for C3 as stated: `_fraction_to_ppb` computes
`int(fraction * 1e9)`, which truncates; at the fraction 7e-10 (inside [0,1])
the product is 0.7, so the code returns 0 while the nearest integer — the
value `round(f * 1e9)` the claim specifies — is 1. -/
theorem fractionToPpb_not_rounded_counterexample :
    fractionToPpb (7/10000000000) = 0
    ∧ PySem.pythonRound ((7/10000000000 : ℚ) * 1000000000) = 1
    ∧ (0 : ℚ) ≤ 7/10000000000
    ∧ (7/10000000000 : ℚ) ≤ 1
    ∧ fractionToPpb (7/10000000000)
        ≠ PySem.pythonRound ((7/10000000000 : ℚ) * 1000000000) := by
  have harg : (7/10000000000 : ℚ) * (oneBillion : ℚ) = 7/10 := by
    norm_num [oneBillion]
  have harg2 : (7/10000000000 : ℚ) * 1000000000 = 7/10 := by norm_num
  have hfloor : ⌊(7/10 : ℚ)⌋ = 0 := by
    rw [Int.floor_eq_iff] <;> norm_num
  have htrunc : fractionToPpb (7/10000000000) = 0 := by
    unfold fractionToPpb
    rw [harg, PySem.pythonInt_eq_floor_of_nonneg _ (by norm_num), hfloor]
  have hround : PySem.pythonRound ((7/10000000000 : ℚ) * 1000000000) = 1 := by
    rw [harg2]
    unfold PySem.pythonRound
    dsimp only
    rw [hfloor]
    norm_num
  refine ⟨htrunc, hround, by norm_num, by norm_num, ?_⟩
  rw [htrunc, hround]
  decide

/-- C3 (amended): for every fraction f in [0, 1], `_fraction_to_ppb(f)` is
the truncation `⌊f * 1e9⌋` of f times one billion (truncation toward zero,
which on nonnegative inputs is the floor) — not the nearest integer, which
can be one greater. -/
theorem fractionToPpb_eq_floor (f : ℚ) (h0 : 0 ≤ f) (h1 : f ≤ 1) :
    fractionToPpb f = ⌊f * 1000000000⌋ := by
  unfold fractionToPpb
  rw [show ((oneBillion : ℤ) : ℚ) = 1000000000 by norm_num [oneBillion]]
  exact PySem.pythonInt_eq_floor_of_nonneg _ (by positivity)

/-- Closed witness for C3's amended theorem at f = 1/2. -/
theorem fractionToPpb_eq_floor_witness :
    fractionToPpb (1/2) = ⌊(1/2 : ℚ) * 1000000000⌋ :=
  fractionToPpb_eq_floor (1/2) (by norm_num) (by norm_num)

theorem mem_ite_singleton {α : Type} (c : Prop) [Decidable c] (x y : α) :
    x ∈ (if c then [y] else ([] : List α)) ↔ c ∧ x = y := by
  split_ifs with h <;> simp [h]

/-- C6: `get_mix_validation_errors` returns every violated constraint and
only violated constraints: each channel's below-2%-of-full-scale error
appears iff that channel's computed flow is strictly below 2% of its MFC's
full scale and nonzero (so a flow exactly at 2% is not flagged and a
zero-flow channel is exempt); the target-fraction-too-high error appears iff
the setpoint O2 fraction exceeds the source gas O2 fraction; each channel's
over-maximum error appears iff its computed flow exceeds that MFC's maximum.
The hypothesis keeps the embedding faithful: a zero source fraction would
raise `ZeroDivisionError` in the source instead. -/
theorem getMixValidationErrors_iff
    (totalFlowRateSlpm o2SourceGasO2Fraction setpointO2Fraction : ℚ)
    (hsrc : o2SourceGasO2Fraction ≠ 0) :
    (MixValidationError.setpointGasO2FractionTooHigh
        ∈ getMixValidationErrors totalFlowRateSlpm o2SourceGasO2Fraction setpointO2Fraction
      ↔ setpointO2Fraction > o2SourceGasO2Fraction)
    ∧ (MixValidationError.o2FlowRateAboveMax
        ∈ getMixValidationErrors totalFlowRateSlpm o2SourceGasO2Fraction setpointO2Fraction
      ↔ getO2SourceGasFlowRate totalFlowRateSlpm setpointO2Fraction o2SourceGasO2Fraction
          > o2SourceGasMaxFlow)
    ∧ (MixValidationError.o2FlowRateBelowMinimum
        ∈ getMixValidationErrors totalFlowRateSlpm o2SourceGasO2Fraction setpointO2Fraction
      ↔ (getO2SourceGasFlowRate totalFlowRateSlpm setpointO2Fraction o2SourceGasO2Fraction
            < o2SourceGasMaxFlow * minFlowRateFraction
          ∧ getO2SourceGasFlowRate totalFlowRateSlpm setpointO2Fraction o2SourceGasO2Fraction
            ≠ 0))
    ∧ (MixValidationError.n2FlowRateAboveMax
        ∈ getMixValidationErrors totalFlowRateSlpm o2SourceGasO2Fraction setpointO2Fraction
      ↔ totalFlowRateSlpm
          - getO2SourceGasFlowRate totalFlowRateSlpm setpointO2Fraction o2SourceGasO2Fraction
          > nitrogenMaxFlow)
    ∧ (MixValidationError.n2FlowRateBelowMinimum
        ∈ getMixValidationErrors totalFlowRateSlpm o2SourceGasO2Fraction setpointO2Fraction
      ↔ (totalFlowRateSlpm
            - getO2SourceGasFlowRate totalFlowRateSlpm setpointO2Fraction o2SourceGasO2Fraction
            < nitrogenMaxFlow * minFlowRateFraction
          ∧ totalFlowRateSlpm
            - getO2SourceGasFlowRate totalFlowRateSlpm setpointO2Fraction o2SourceGasO2Fraction
            ≠ 0)) := by
  refine ⟨?_, ?_, ?_, ?_, ?_⟩ <;>
    simp [getMixValidationErrors, mem_ite_singleton]

/-- Closed witness for C6: a mix whose O2-source channel lands exactly at
the 2.5 SLPM maximum (not above it). -/
theorem getMixValidationErrors_iff_witness :
    (MixValidationError.o2FlowRateAboveMax ∈ getMixValidationErrors 5 (1/2) (1/4)
      ↔ getO2SourceGasFlowRate 5 (1/4) (1/2) > o2SourceGasMaxFlow)
    ∧ (MixValidationError.setpointGasO2FractionTooHigh
        ∈ getMixValidationErrors 5 (1/2) (1/4) ↔ (1/4 : ℚ) > 1/2) :=
  ⟨(getMixValidationErrors_iff 5 (1/2) (1/4) (by norm_num)).2.1,
   (getMixValidationErrors_iff 5 (1/2) (1/4) (by norm_num)).1⟩

end GasMixer

namespace GasMixer

theorem sendSequence_all_match (respond : ℕ → String) :
    ∀ (ps : List (String × String)) (start : ℕ),
      (∀ i (h : i < ps.length), respond (start + i) = (ps.get ⟨i, h⟩).2) →
      sendSequenceWithExpectedResponses respond start ps = (ps.map Prod.fst, .ok ()) := by
  intro ps
  induction ps with
  | nil => intro start _; rfl
  | cons p rest ih =>
      intro start hmatch
      obtain ⟨command, expectedResponse⟩ := p
      have h0 : respond start = expectedResponse := by
        simpa using hmatch 0 (by simp)
      show (if respond start = expectedResponse then
          let next := sendSequenceWithExpectedResponses respond (start + 1) rest
          (command :: next.1, next.2)
        else ([command], .error .unexpectedMixerResponse))
        = (((command, expectedResponse) :: rest).map Prod.fst, .ok ())
      rw [if_pos h0]
      have hrest : sendSequenceWithExpectedResponses respond (start + 1) rest
          = (rest.map Prod.fst, .ok ()) := by
        apply ih
        intro i h
        have h2 := hmatch (i + 1) (by simpa using Nat.succ_lt_succ h)
        rw [show start + (i + 1) = start + 1 + i by omega] at h2
        exact h2
      rw [hrest]
      rfl

theorem sendSequence_first_mismatch (respond : ℕ → String) :
    ∀ (ps : List (String × String)) (start k : ℕ) (hk : k < ps.length),
      (∀ i (h : i < k), respond (start + i) = (ps.get ⟨i, lt_trans h hk⟩).2) →
      respond (start + k) ≠ (ps.get ⟨k, hk⟩).2 →
      sendSequenceWithExpectedResponses respond start ps
        = ((ps.map Prod.fst).take (k + 1), .error .unexpectedMixerResponse) := by
  intro ps
  induction ps with
  | nil =>
      intro start k hk
      exact absurd hk (by simp)
  | cons p rest ih =>
      intro start k hk hpre hmis
      obtain ⟨command, expectedResponse⟩ := p
      cases k with
      | zero =>
          have h0 : respond start ≠ expectedResponse := by simpa using hmis
          show (if respond start = expectedResponse then
              let next := sendSequenceWithExpectedResponses respond (start + 1) rest
              (command :: next.1, next.2)
            else ([command], .error .unexpectedMixerResponse))
            = _
          rw [if_neg h0]
          rfl
      | succ k =>
          have h0 : respond start = expectedResponse := by
            simpa using hpre 0 (Nat.succ_pos k)
          have hk2 : k < rest.length := by simpa using Nat.lt_of_succ_lt_succ hk
          show (if respond start = expectedResponse then
              let next := sendSequenceWithExpectedResponses respond (start + 1) rest
              (command :: next.1, next.2)
            else ([command], .error .unexpectedMixerResponse))
            = _
          rw [if_pos h0]
          have hrest := ih (start + 1) k hk2 ?_ ?_
          · rw [hrest]
            rfl
          · intro i h
            have h2 := hpre (i + 1) (Nat.succ_lt_succ h)
            rw [show start + (i + 1) = start + 1 + i by omega] at h2
            exact h2
          · rw [show start + 1 + k = start + (k + 1) by omega]
            exact hmis

/-- C8: `_start_constant_flow_mix` with a requested flow rate of exactly
zero issues only the stop-flow command; for every nonzero valid request it
sends exactly the four commands — set constant-flow mode, set mix fraction,
set flow rate, start — in that order (the fraction command strictly before
the flow-rate command), and at the first command whose echoed response
differs from the exact expected string it raises `UnexpectedMixerResponse`
and sends none of the remaining commands. -/
theorem startConstantFlowMix_command_sequence :
    (∀ (respond : ℕ → String) (setpointO2Fraction o2SourceGasO2Fraction : ℚ),
      (startConstantFlowMix respond 0 setpointO2Fraction o2SourceGasO2Fraction).1
        = [deviceId ++ " MXRS 2"])
    ∧ (∀ (respond : ℕ → String) (flow sp src : ℚ),
        flow ≠ 0 →
        getMixValidationErrors flow src sp = [] →
        ∀ ps, ps = startMixCommands flow (getSourceGasFlowRatesPpb src sp).1
            (getSourceGasFlowRatesPpb src sp).2 →
        ps.map Prod.fst
            = [deviceId ++ " MXRM 3",
               deviceId ++ " MXMF " ++ toString (getSourceGasFlowRatesPpb src sp).1
                 ++ " " ++ toString (getSourceGasFlowRatesPpb src sp).2,
               deviceId ++ " MXRFF " ++ formatTwoDecimals flow,
               deviceId ++ " MXRS 1"]
        ∧ ((∀ i (h : i < ps.length), respond i = (ps.get ⟨i, h⟩).2) →
            startConstantFlowMix respond flow sp src = (ps.map Prod.fst, .ok ()))
        ∧ ∀ k (hk : k < ps.length),
            (∀ i (h : i < k), respond i = (ps.get ⟨i, lt_trans h hk⟩).2) →
            respond k ≠ (ps.get ⟨k, hk⟩).2 →
            startConstantFlowMix respond flow sp src
              = ((ps.map Prod.fst).take (k + 1), .error .unexpectedMixerResponse)) := by
  constructor
  · intro respond sp src
    unfold startConstantFlowMix
    rw [if_pos rfl]
    rfl
  · intro respond flow sp src hflow hvalid ps hps
    have hguard : ¬ (getMixValidationErrors flow src sp ≠ []) := by
      rw [hvalid]
      exact fun h => h rfl
    have hbranch : startConstantFlowMix respond flow sp src
        = sendSequenceWithExpectedResponses respond 0 ps := by
      unfold startConstantFlowMix
      rw [if_neg hflow, if_neg hguard, hps]
    refine ⟨by rw [hps]; rfl, ?_, ?_⟩
    · intro hall
      rw [hbranch]
      apply sendSequence_all_match
      intro i h
      rw [Nat.zero_add]
      exact hall i h
    · intro k hk hpre hmis
      rw [hbranch]
      apply sendSequence_first_mismatch respond ps 0 k hk
      · intro i h
        rw [Nat.zero_add]
        exact hpre i h
      · rw [Nat.zero_add]
        exact hmis

end GasMixer

namespace GasMixer

theorem formatTwoDecimals_five_halves : formatTwoDecimals (5/2) = "2.50" := by
  unfold formatTwoDecimals
  dsimp only
  rw [show ((5/2 : ℚ) * 100) = ((250 : ℤ) : ℚ) by norm_num, PySem.pythonRound_intCast]
  rfl

theorem sourceGasFlowRatesPpb_pure_o2_match :
    getSourceGasFlowRatesPpb (21/100) (21/100) = (0, 1000000000) := by
  unfold getSourceGasFlowRatesPpb
  dsimp only
  rw [show ((21/100 : ℚ) / (21/100)) = 1 by norm_num]
  unfold fractionToPpb complimentaryPpbValue
  rw [show ((1 : ℚ) * ((oneBillion : ℤ) : ℚ)) = ((1000000000 : ℤ) : ℚ)
      by norm_num [oneBillion], PySem.pythonInt_intCast]
  norm_num [oneBillion]

theorem mixValidationErrors_full_scale_ok :
    getMixValidationErrors (5/2) (21/100) (21/100) = [] := by
  norm_num [getMixValidationErrors, getO2SourceGasFlowRate, o2SourceGasMaxFlow,
    minFlowRateFraction, nitrogenMaxFlow]

theorem startMixCommands_concrete :
    startMixCommands (5/2) (getSourceGasFlowRatesPpb (21/100) (21/100)).1
        (getSourceGasFlowRatesPpb (21/100) (21/100)).2
      = [("A MXRM 3", "A 3"),
         ("A MXMF 0 1000000000", "A 0 1000000000"),
         ("A MXRFF 2.50", "A 2.50 7 SLPM"),
         ("A MXRS 1", "A 2")] := by
  rw [sourceGasFlowRatesPpb_pure_o2_match]
  simp only [startMixCommands]
  rw [formatTwoDecimals_five_halves]
  rfl

/-- Closed witness for C8: a valid 2.50 SLPM request at matching source and
setpoint O2 fractions, with the device echoing every expected response,
sends exactly the four commands in order and succeeds. -/
theorem startConstantFlowMix_command_sequence_witness :
    startConstantFlowMix
      (fun i => if i = 0 then "A 3" else if i = 1 then "A 0 1000000000"
        else if i = 2 then "A 2.50 7 SLPM" else "A 2")
      (5/2) (21/100) (21/100)
    = (["A MXRM 3", "A MXMF 0 1000000000", "A MXRFF 2.50", "A MXRS 1"],
       .ok ()) := by
  have h := (startConstantFlowMix_command_sequence).2
    (fun i => if i = 0 then "A 3" else if i = 1 then "A 0 1000000000"
      else if i = 2 then "A 2.50 7 SLPM" else "A 2")
    (5/2) (21/100) (21/100) (by norm_num) mixValidationErrors_full_scale_ok
    [("A MXRM 3", "A 3"),
     ("A MXMF 0 1000000000", "A 0 1000000000"),
     ("A MXRFF 2.50", "A 2.50 7 SLPM"),
     ("A MXRS 1", "A 2")]
    startMixCommands_concrete.symm
  exact h.2.1 (by decide)

/-- C10: a run-state (MXRS) response that does not match the pattern
"device ID, space, digit" makes `_assert_mixer_state` fail with the
`AttributeError` arising from the `None` regex match — not with
`UnexpectedMixerResponse` — and therefore `stop_flow_with_retry` and
`start_constant_flow_mix_with_retry` (zero flow delegates to `_stop_flow`),
which retry only on `UnexpectedMixerResponse`, give up after a single
attempt instead of retrying. -/
theorem runState_regex_failure_not_retried (respondAt : ℕ → ℕ → String)
    (s : String) (expectedCodes : List ℕ) (sp src : ℚ)
    (hs : matchRunStateResponse s = none)
    (hr : matchRunStateResponse (respondAt 0 0) = none) :
    assertMixerState s expectedCodes = .error .attributeError
    ∧ isUnexpectedMixerResponse .attributeError = false
    ∧ stopFlowWithRetry respondAt = (.error .attributeError, 1)
    ∧ startConstantFlowMixWithRetry respondAt 0 sp src
        = (.error .attributeError, 1) := by
  have hassert : ∀ t : String, matchRunStateResponse t = none →
      assertMixerState t stoppedStateCodes = .error .attributeError := by
    intro t ht
    unfold assertMixerState
    rw [ht]
  refine ⟨?_, rfl, ?_, ?_⟩
  · unfold assertMixerState
    rw [hs]
  · exact Retry.backoffLoop_unexpected isUnexpectedMixerResponse
      (fun attempt => (stopFlowRun (respondAt attempt)).2) 0 .attributeError
      (hassert (respondAt 0 0) hr) rfl 9
  · have hzero : (fun attempt => (startConstantFlowMix (respondAt attempt) 0 sp src).2)
        = fun attempt => (stopFlowRun (respondAt attempt)).2 := by
      funext attempt
      unfold startConstantFlowMix
      rw [if_pos rfl]
    show Retry.retryOnException isUnexpectedMixerResponse
        (fun attempt => (startConstantFlowMix (respondAt attempt) 0 sp src).2)
      = (.error .attributeError, 1)
    rw [hzero]
    exact Retry.backoffLoop_unexpected isUnexpectedMixerResponse
      (fun attempt => (stopFlowRun (respondAt attempt)).2) 0 .attributeError
      (hassert (respondAt 0 0) hr) rfl 9

/-- Closed witness for C10: an empty mixer response. -/
theorem runState_regex_failure_not_retried_witness :
    assertMixerState "" stoppedStateCodes = .error .attributeError
    ∧ stopFlowWithRetry (fun _ _ => "") = (.error .attributeError, 1) :=
  ⟨(runState_regex_failure_not_retried (fun _ _ => "") "" stoppedStateCodes 0 1
      rfl rfl).1,
   (runState_regex_failure_not_retried (fun _ _ => "") "" stoppedStateCodes 0 1
      rfl rfl).2.2.1⟩

end GasMixer

namespace Equilibrate

/-! Embedding of `_is_field_equilibrated` from
`calibration_environment/equilibrate.py`.  The sensor data log is the list
of `(timestamp, field_value)` rows; `pandas` column min/max are
`PySem.listMin`/`PySem.listMax` (the log always has at least one row when
the function is called: `_wait_for_equilibration` appends a sample before
every check). -/

/-- Python's `round(x, 5)` used on the variation
("round to get rid of floating point error"). -/
def roundTo5 (x : ℚ) : ℚ :=
  (PySem.pythonRound (x * 100000) : ℚ) / 100000

/-- Function `_is_field_equilibrated`: return false when the log spans less
than `min_stable_time`; otherwise restrict to rows with
`timestamp >= newest - min_stable_time` and compare the rounded
max-minus-min of the window against `max_variation`. -/
def isFieldEquilibrated (sensorDataLog : List (ℚ × ℚ))
    (maxVariation minStableTime : ℚ) : Bool :=
  let timestamps := sensorDataLog.map Prod.fst
  let oldestTimestamp := PySem.listMin timestamps
  let newestTimestamp := PySem.listMax timestamps
  if newestTimestamp - oldestTimestamp < minStableTime then false
  else
    let windowStartTimestamp := newestTimestamp - minStableTime
    let dataWindow := sensorDataLog.filter
      (fun s => decide (windowStartTimestamp ≤ s.1))
    let maxValue := PySem.listMax (dataWindow.map Prod.snd)
    let minValue := PySem.listMin (dataWindow.map Prod.snd)
    let variation := roundTo5 (maxValue - minValue)
    decide (variation ≤ maxVariation)

theorem isFieldEquilibrated_two_samples (t1 t2 v1 v2 mv mst : ℚ)
    (h12 : t1 ≤ t2) (hspan : t2 - t1 = mst) :
    isFieldEquilibrated [(t1, v1), (t2, v2)] mv mst
      = decide (roundTo5 (max v1 v2 - min v1 v2) ≤ mv) := by
  have hmin : PySem.listMin [t1, t2] = t1 := by
    simp [PySem.listMin, min_eq_left h12]
  have hmax : PySem.listMax [t1, t2] = t2 := by
    simp [PySem.listMax, max_eq_right h12]
  have hvmin : PySem.listMin [v1, v2] = min v1 v2 := by simp [PySem.listMin]
  have hvmax : PySem.listMax [v1, v2] = max v1 v2 := by simp [PySem.listMax]
  have hws : t2 - mst = t1 := by linarith
  have hfil : List.filter (fun s => decide (t1 ≤ s.1)) [(t1, v1), (t2, v2)]
      = [(t1, v1), (t2, v2)] := by
    simp [List.filter, h12]
  unfold isFieldEquilibrated
  simp only [List.map_cons, List.map_nil]
  simp only [hmin, hmax, hws, hfil]
  rw [if_neg (by rw [hspan]; exact lt_irrefl mst)]
  simp only [List.map_cons, List.map_nil, hvmin, hvmax]

end Equilibrate

namespace Equilibrate

theorem roundTo5_le_of_int_multiple (d mv : ℚ) (k : ℤ) (hk : mv = (k : ℚ) / 100000)
    (hd : d ≤ mv) : roundTo5 d ≤ mv := by
  have h1 : d * 100000 ≤ (k : ℚ) := by
    rw [hk] at hd
    linarith
  have h2 : PySem.pythonRound (d * 100000) ≤ ⌈d * 100000⌉ :=
    PySem.pythonRound_le_ceil _
  have h3 : ⌈d * 100000⌉ ≤ k := Int.ceil_le.mpr h1
  have h4 : ((PySem.pythonRound (d * 100000) : ℤ) : ℚ) ≤ (k : ℚ) := by
    exact_mod_cast le_trans h2 h3
  unfold roundTo5
  rw [hk]
  have h5 : (0 : ℚ) ≤ 100000 := by norm_num
  exact div_le_div_of_nonneg_right h4 h5

/-- C7 (amended): the equilibration check returns false whenever the log's
newest-minus-oldest timestamp span is strictly below `min_stable_time`; a
2-sample log spanning exactly `min_stable_time` is judged stable exactly
when the difference of its values, rounded to 5 decimal places, is at most
`max_variation` — in particular whenever the values differ by at most
`max_variation` and `max_variation` is a whole multiple of 1e-5 (rounding
the variation first can push a difference that is at most `max_variation`
above it otherwise); and samples with timestamps strictly older than
`newest - min_stable_time` stay in the log but cannot influence the
stability computation (the result is unchanged under any change of such a
sample's value). -/
theorem isFieldEquilibrated_windowing :
    (∀ (log : List (ℚ × ℚ)) (mv mst : ℚ),
        PySem.listMax (log.map Prod.fst) - PySem.listMin (log.map Prod.fst) < mst →
        isFieldEquilibrated log mv mst = false)
    ∧ (∀ t1 t2 v1 v2 mv mst : ℚ, t1 ≤ t2 → t2 - t1 = mst →
        isFieldEquilibrated [(t1, v1), (t2, v2)] mv mst
          = decide (roundTo5 (max v1 v2 - min v1 v2) ≤ mv)
        ∧ ((∃ k : ℤ, mv = (k : ℚ) / 100000) → max v1 v2 - min v1 v2 ≤ mv →
            isFieldEquilibrated [(t1, v1), (t2, v2)] mv mst = true))
    ∧ (∀ (a b : List (ℚ × ℚ)) (t v vNew mv mst : ℚ),
        t < PySem.listMax ((a ++ (t, v) :: b).map Prod.fst) - mst →
        isFieldEquilibrated (a ++ (t, v) :: b) mv mst
          = isFieldEquilibrated (a ++ (t, vNew) :: b) mv mst) := by
  refine ⟨?_, ?_, ?_⟩
  · intro log mv mst hlt
    unfold isFieldEquilibrated
    dsimp only
    rw [if_pos hlt]
  · intro t1 t2 v1 v2 mv mst h12 hspan
    refine ⟨isFieldEquilibrated_two_samples t1 t2 v1 v2 mv mst h12 hspan, ?_⟩
    intro hex hle
    rw [isFieldEquilibrated_two_samples t1 t2 v1 v2 mv mst h12 hspan]
    obtain ⟨k, hk⟩ := hex
    exact decide_eq_true (roundTo5_le_of_int_multiple _ mv k hk hle)
  · intro a b t v vNew mv mst hlt
    have hmapeq : (a ++ (t, v) :: b).map Prod.fst
        = (a ++ (t, vNew) :: b).map Prod.fst := by simp
    simp only [hmapeq] at hlt
    unfold isFieldEquilibrated
    dsimp only
    simp only [hmapeq]
    by_cases hspan : PySem.listMax ((a ++ (t, vNew) :: b).map Prod.fst)
        - PySem.listMin ((a ++ (t, vNew) :: b).map Prod.fst) < mst
    · rw [if_pos hspan, if_pos hspan]
    · rw [if_neg hspan, if_neg hspan]
      have hdec : decide (PySem.listMax ((a ++ (t, vNew) :: b).map Prod.fst)
          - mst ≤ t) = false := by
        simp only [decide_eq_false_iff_not]
        linarith
      have hfil : (a ++ (t, v) :: b).filter
            (fun s => decide (PySem.listMax ((a ++ (t, vNew) :: b).map Prod.fst)
              - mst ≤ s.1))
          = (a ++ (t, vNew) :: b).filter
            (fun s => decide (PySem.listMax ((a ++ (t, vNew) :: b).map Prod.fst)
              - mst ≤ s.1)) := by
        rw [List.filter_append, List.filter_append]
        congr 1
        rw [List.filter_cons, List.filter_cons]
        simp only [hdec]
        rfl
      rw [hfil]

/-- Counterexample for C7 as stated: a 2-sample log spanning exactly
`min_stable_time` whose values differ by exactly `max_variation = 6e-6` —
at most `max_variation` — is judged NOT stable, because the code rounds the
variation to 5 decimal places first (6e-6 rounds up to 1e-5 > 6e-6). -/
theorem isFieldEquilibrated_rounding_counterexample :
    ((6/1000000 : ℚ) - 0 ≤ 6/1000000)
    ∧ ((300 : ℚ) - 0 = 300)
    ∧ isFieldEquilibrated [((0 : ℚ), (0 : ℚ)), (300, 6/1000000)] (6/1000000) 300
        = false := by
  refine ⟨by norm_num, by norm_num, ?_⟩
  rw [isFieldEquilibrated_two_samples 0 300 0 (6/1000000) (6/1000000) 300
    (by norm_num) (by norm_num)]
  have hmax : max (0 : ℚ) (6/1000000) = 6/1000000 := max_eq_right (by norm_num)
  have hmin : min (0 : ℚ) (6/1000000) = 0 := min_eq_left (by norm_num)
  rw [hmax, hmin]
  have hround : PySem.pythonRound (3/5 : ℚ) = 1 := by
    unfold PySem.pythonRound
    dsimp only
    rw [show ⌊(3/5 : ℚ)⌋ = 0 by rw [Int.floor_eq_iff] <;> norm_num]
    norm_num
  have hr : roundTo5 ((6/1000000 : ℚ) - 0) = 1/100000 := by
    unfold roundTo5
    rw [show ((6/1000000 : ℚ) - 0) * 100000 = 3/5 by norm_num]
    rw [hround]
    norm_num
  rw [hr]
  simp only [decide_eq_false_iff_not]
  norm_num

/-- Closed witness for C7's amended theorem: a log spanning 100 < 300 is not
equilibrated; a 2-sample log spanning exactly 300 with values differing by
1/20 at tolerance 1/10 (a whole multiple of 1e-5) is equilibrated. -/
theorem isFieldEquilibrated_windowing_witness :
    isFieldEquilibrated [((0 : ℚ), (0 : ℚ)), (100, 0)] (1/10) 300 = false
    ∧ isFieldEquilibrated [((0 : ℚ), (0 : ℚ)), (300, 1/20)] (1/10) 300 = true :=
  ⟨(isFieldEquilibrated_windowing).1 [(0, 0), (100, 0)] (1/10) 300
      (by simp [PySem.listMax, PySem.listMin]; norm_num),
   ((isFieldEquilibrated_windowing).2.1 0 300 0 (1/20) (1/10) 300
      (by norm_num) (by norm_num)).2 ⟨10000, by norm_num⟩
      (by rw [max_eq_right (by norm_num : (0 : ℚ) ≤ 1/20),
              min_eq_left (by norm_num : (0 : ℚ) ≤ 1/20)]
          norm_num)⟩

end Equilibrate

namespace Run

/-! Modelled from the spec: the orchestrator's `run()` termination handling
and `_shut_down` are code of this repository missing from `src/` —
`src/calibration_environment/run.py` is an older revision whose `finally`
block is a commented-out TODO (`# gas_mixer.stop_flow(...)`,
`# water_bath.shutdown(...)`, `pass`), while
`src/calibration_environment/run_test.py` tests a `run` module with a
`_shut_down` function.  The model below follows spec §4.6: termination
(normal completion, unhandled exception, or interrupt) always funnels
through one fail-safe shutdown path — stop the gas mixer first, then,
regardless of whether that succeeded, wait a fixed 5-second settle time and
power off the water bath — and the cause of the shutdown is re-raised after
cleanup, never suppressed.  Hardware effects are traces of `ShutdownStep`s;
an outcome is the trace paired with the exception (if any) that propagates. -/

/-- The observable shutdown actions: the gas-mixer stop-flow command, the
fixed settle sleep, and the water-bath power-off command. -/
inductive ShutdownStep
  | stopGasMixer
  | settleSleep (seconds : ℕ)
  | waterBathPowerOff
deriving DecidableEq

/-- Python `try/finally` over effect traces: the body's steps happen, then
the finalizer's steps happen regardless; an exception raised by the
finalizer replaces the body's, otherwise the body's outcome stands. -/
def tryFinally {ε : Type} (body finalizer : List ShutdownStep × Option ε) :
    List ShutdownStep × Option ε :=
  (body.1 ++ finalizer.1,
   match finalizer.2 with
   | some e => some e
   | none => body.2)

/-- Modelled from the spec: `_shut_down` — issue the gas-mixer stop-flow
command inside a `try` whose `finally` sleeps 5 seconds and powers off the
water bath, so the settle wait and the power-off happen whether or not the
stop-flow call raised, and a stop-flow exception still propagates afterwards
(this is the behaviour `run_test.py`'s `TestShutDown` asserts).
`stopFlowOutcome` is the outcome of the `stop_flow_with_retry` call. -/
def shutDown {ε : Type} (stopFlowOutcome : Option ε) :
    List ShutdownStep × Option ε :=
  tryFinally ([ShutdownStep.stopGasMixer], stopFlowOutcome)
    ([ShutdownStep.settleSleep 5, ShutdownStep.waterBathPowerOff], none)

/-- Modelled from the spec: the termination path of `run()` — however the
body ends (`bodyOutcome` is `none` for normal completion and `some e` for an
unhandled exception or keyboard interrupt), `_shut_down` runs, and the cause
of the shutdown is re-raised after cleanup, never suppressed. -/
def runTermination {ε : Type} (bodyOutcome stopFlowOutcome : Option ε) :
    List ShutdownStep × Option ε :=
  let cleanup := shutDown stopFlowOutcome
  (cleanup.1,
   match bodyOutcome with
   | some e => some e
   | none => cleanup.2)

/-- C1 (spec-modelled): every termination of `run()` executes the fail-safe
shutdown: the stop-flow command is issued first, and regardless of whether
stop-flow succeeded or raised, the 5-second settle wait and the water-bath
power-off follow, in that order; and when the shutdown was caused by an
exception, that original exception propagates after the cleanup. -/
theorem runTermination_fail_safe {ε : Type} (bodyOutcome stopFlowOutcome : Option ε) :
    (runTermination bodyOutcome stopFlowOutcome).1
      = [ShutdownStep.stopGasMixer, ShutdownStep.settleSleep 5,
         ShutdownStep.waterBathPowerOff]
    ∧ (shutDown stopFlowOutcome).1
      = [ShutdownStep.stopGasMixer, ShutdownStep.settleSleep 5,
         ShutdownStep.waterBathPowerOff]
    ∧ (∀ e, bodyOutcome = some e →
        (runTermination bodyOutcome stopFlowOutcome).2 = some e) := by
  refine ⟨rfl, rfl, ?_⟩
  intro e he
  unfold runTermination
  rw [he]

/-- Closed witness for C1: the body fails with exception 0 and the stop-flow
call fails with exception 1; the full shutdown trace still happens and the
body's exception is the one that propagates. -/
theorem runTermination_fail_safe_witness :
    (runTermination (some 0) (some 1) : List ShutdownStep × Option ℕ).1
      = [ShutdownStep.stopGasMixer, ShutdownStep.settleSleep 5,
         ShutdownStep.waterBathPowerOff]
    ∧ (runTermination (some 0) (some 1) : List ShutdownStep × Option ℕ).2 = some 0 :=
  ⟨(runTermination_fail_safe (some 0) (some 1)).1,
   (runTermination_fail_safe (some 0) (some 1)).2.2 0 rfl⟩

end Run
